import Mathlib

/-!
Verification of the `py-deep-research` service (`main.py`): a FastAPI wrapper
around the external `deep_researcher` library that validates a research
request, runs the library, intercepts its log lines into typed events, extracts
citations from free text with regexes, and streams SSE-framed JSON events.

The source is embedded shallowly:
* Python strings are `String`; helper functions (`pyStrip`, `pyReplace`,
  `pyFind`) reproduce the semantics of `str.strip()`, `str.replace` and
  `str.find` used by the code.
* `json.dumps` on the dict literals the code builds is modelled by an
  inductive `JValue` (dicts keep insertion order) and a serializer `dumps`.
* The two regexes are implemented as explicit left-to-right scanners with the
  exact same match semantics (leftmost, non-overlapping, greedy character
  classes); each is documented at its definition.
* The async generators are pure functions from the request parameters and an
  explicit model of the library's observable behaviour (its log lines and the
  result of `run`) to the list of SSE strings yielded, paired with the
  wrapper's internal `events` list.
-/

/-! ## Python string helpers -/

/-- Characters that Python's `str.strip()` (and `\s` in `re` patterns over
`str`) treats as whitespace: ASCII whitespace, the C1 separators, and the
Unicode space characters. -/
def isPySpace (c : Char) : Bool :=
  let n := c.toNat
  (decide (9 ≤ n) && decide (n ≤ 13)) || (decide (28 ≤ n) && decide (n ≤ 31)) ||
  decide (n = 32) || decide (n = 133) || decide (n = 160) || decide (n = 5760) ||
  (decide (8192 ≤ n) && decide (n ≤ 8202)) || decide (n = 8232) || decide (n = 8233) ||
  decide (n = 8239) || decide (n = 8287) || decide (n = 12288)

/-- Python `str.strip()` on the character list: drop whitespace from both ends. -/
def pyStripList (s : List Char) : List Char :=
  ((s.dropWhile isPySpace).reverse.dropWhile isPySpace).reverse

/-- Python `str.strip()`. -/
def pyStrip (s : String) : String :=
  String.mk (pyStripList s.toList)

/-- One pass of Python `str.replace(old, new)`: scan left to right, replace
each non-overlapping occurrence of `pat`, never rescanning the replacement.
`fuel` bounds the recursion; it is instantiated with the string length, which
suffices because every step consumes at least one character of `s` (all
patterns used by the code are non-empty). -/
def pyReplaceAux (pat repl : List Char) : Nat → List Char → List Char
  | 0, s => s
  | _ + 1, [] => []
  | fuel + 1, c :: rest =>
    if pat.isPrefixOf (c :: rest) then
      repl ++ pyReplaceAux pat repl fuel ((c :: rest).drop pat.length)
    else
      c :: pyReplaceAux pat repl fuel rest

/-- Python `s.replace(pat, repl)` for non-empty `pat`. -/
def pyReplace (s pat repl : String) : String :=
  String.mk (pyReplaceAux pat.toList repl.toList s.toList.length s.toList)

/-- Substring containment on character lists (Python `pat in s`). -/
def containsSub : List Char → List Char → Bool
  | pat, [] => pat.isEmpty
  | pat, s@(_ :: rest) => pat.isPrefixOf s || containsSub pat rest

/-- Python `pat in s` for strings. -/
def strContains (pat s : String) : Bool :=
  containsSub pat.toList s.toList

/-- Index of the first occurrence of `pat` in the list starting at offset `i`,
or `none`. -/
def findSubAux (pat : List Char) (i : Nat) : List Char → Option Nat
  | [] => if pat.isEmpty then some i else none
  | s@(_ :: rest) => if pat.isPrefixOf s then some i else findSubAux pat (i + 1) rest

/-- Python `s.find(pat)`: index of the first occurrence, `-1` if absent. -/
def pyFind (s pat : String) : Int :=
  match findSubAux pat.toList 0 s.toList with
  | some n => (n : Int)
  | none => -1

/-! ## JSON model (`json.dumps` on the dict literals the code builds) -/

/-- JSON values as the code passes them to `json.dumps`: strings, ints,
arrays, and dicts (insertion-ordered key/value lists). -/
inductive JValue where
  | str (s : String)
  | int (n : Int)
  | arr (xs : List JValue)
  | obj (fields : List (String × JValue))
deriving Repr

/-- Lowercase hex digit, as `json.dumps` emits in `\uXXXX` escapes. -/
def hexDigit (n : Nat) : Char :=
  if n < 10 then Char.ofNat (48 + n) else Char.ofNat (87 + n)

/-- Four lowercase hex digits. -/
def hex4 (n : Nat) : String :=
  String.mk [hexDigit (n / 4096 % 16), hexDigit (n / 256 % 16),
             hexDigit (n / 16 % 16), hexDigit (n % 16)]

/-- `json.dumps` escaping of one character with the default `ensure_ascii=True`:
short escapes for the common controls, `\uXXXX` for other controls and all
non-ASCII characters (surrogate pairs beyond the BMP). -/
def jsonEscapeChar (c : Char) : String :=
  let n := c.toNat
  if n = 34 then "\\\""
  else if n = 92 then "\\\\"
  else if n = 10 then "\\n"
  else if n = 9 then "\\t"
  else if n = 13 then "\\r"
  else if n = 8 then "\\b"
  else if n = 12 then "\\f"
  else if n < 32 then "\\u" ++ hex4 n
  else if n < 127 then String.singleton c
  else if n < 65536 then "\\u" ++ hex4 n
  else "\\u" ++ hex4 (55296 + (n - 65536) / 1024) ++ "\\u" ++ hex4 (56320 + (n - 65536) % 1024)

/-- A JSON string literal with `json.dumps` escaping. -/
def quoteJson (s : String) : String :=
  "\"" ++ String.join (s.toList.map jsonEscapeChar) ++ "\""

mutual

/-- `json.dumps` with its default separators (`", "` and `": "`), on the
value model. -/
def dumps : JValue → String
  | JValue.str s => quoteJson s
  | JValue.int n => toString n
  | JValue.arr xs => "[" ++ dumpsList xs ++ "]"
  | JValue.obj fs => "\x7b" ++ dumpsFields fs ++ "\x7d"

/-- Array elements joined with `", "`. -/
def dumpsList : List JValue → String
  | [] => ""
  | [x] => dumps x
  | x :: y :: rest => dumps x ++ ", " ++ dumpsList (y :: rest)

/-- Dict entries `key: value` joined with `", "`. -/
def dumpsFields : List (String × JValue) → String
  | [] => ""
  | [(k, v)] => quoteJson k ++ ": " ++ dumps v
  | (k, v) :: f :: rest => quoteJson k ++ ": " ++ dumps v ++ ", " ++ dumpsFields (f :: rest)

end

/-- `_format_event` (main.py:267-270): `"data: "` + `json.dumps({"type":
event_type, "data": data})` + a blank-line terminator. -/
def format_event (event_type : String) (data : JValue) : String :=
  "data: " ++ dumps (JValue.obj [("type", JValue.str event_type), ("data", data)]) ++ "\n\n"

/-! ## URL scanner

The code calls `re.findall` on the pattern `https?://` followed by one or
more characters outside a banned class (whitespace and ten punctuation
characters, listed by code point in `urlBannedCodes` below) at main.py:279
and main.py:313. `re.findall` scans left to right: at each
position it tries the pattern (the greedy `https?` prefers `https://` and can
only fall back to `http://`, which never matches where `https://` begins, so
the alternative is a prefix test for `https://` then `http://`), then consumes
the maximal non-empty run of allowed characters; on failure it advances one
character, on success it continues right after the match (non-overlapping). -/

/-- Code points excluded from a URL by the character class (besides
whitespace): less-than, greater-than, double quote, the two curly braces,
vertical bar, backslash, caret, backtick, and the two square brackets. -/
def urlBannedCodes : List Nat := [60, 62, 34, 123, 125, 124, 92, 94, 96, 91, 93]

/-- A character the class `[^\s<>"..|\\^..\[\]]` accepts. -/
def urlAllowedChar (c : Char) : Bool :=
  !(isPySpace c) && !(urlBannedCodes.contains c.toNat)

/-- Try `https?://[^...]+` anchored at the head of `s`: returns the match and
the rest of the input after it. -/
def matchUrlAt (s : List Char) : Option (List Char × List Char) :=
  let tryScheme := fun (p : List Char) =>
    if p.isPrefixOf s then
      let afterScheme := s.drop p.length
      let run := afterScheme.takeWhile urlAllowedChar
      if run.isEmpty then none
      else some (p ++ run, afterScheme.drop run.length)
    else none
  match tryScheme "https://".toList with
  | some r => some r
  | none => tryScheme "http://".toList

/-- `re.findall` of the URL pattern: leftmost, non-overlapping matches.
`fuel` is instantiated with the input length; each step consumes at least one
character. -/
def findUrlsAux (fuel : Nat) (s : List Char) : List String :=
  match fuel, s with
  | 0, _ => []
  | _ + 1, [] => []
  | fuel + 1, c :: rest =>
    match matchUrlAt (c :: rest) with
    | some (url, remaining) => String.mk url :: findUrlsAux fuel remaining
    | none => findUrlsAux fuel rest

/-- All URL matches in a string, in order. -/
def findUrls (s : String) : List String :=
  findUrlsAux s.toList.length s.toList

/-! ## Markdown-link scanner

`re.findall(r'\[([^\]]+)\]\((https?://[^\)]+)\)', report)` (main.py:301):
a `[`, a non-empty run of non-`]` characters (the title), `]`, `(`, a URL
(`https?://` then a non-empty run of non-`)` characters), and `)`. Both
character classes are greedy but cannot cross their terminator, so each
consumes the maximal run up to the next terminator; `findall` returns the
two capture groups of each leftmost non-overlapping match. -/

/-- Try the markdown-link pattern anchored at the head of `s`: returns
`((title, url), rest)`. -/
def matchMarkdownAt (s : List Char) : Option ((String × String) × List Char) :=
  match s with
  | '[' :: afterBracket =>
    let title := afterBracket.takeWhile (fun c => !(c.toNat = 93 : Bool))
    if title.isEmpty then none
    else
      match afterBracket.drop title.length with
      | ']' :: '(' :: afterParen =>
        let tryScheme := fun (p : List Char) =>
          if p.isPrefixOf afterParen then
            let afterScheme := afterParen.drop p.length
            let run := afterScheme.takeWhile (fun c => !(c.toNat = 41 : Bool))
            if run.isEmpty then none
            else
              match afterScheme.drop run.length with
              | ')' :: rest => some ((String.mk title, String.mk (p ++ run)), rest)
              | _ => none
          else none
        (match tryScheme "https://".toList with
         | some r => some r
         | none => tryScheme "http://".toList)
      | _ => none
  | _ => none

/-- `re.findall` of the markdown-link pattern. -/
def findMarkdownLinksAux (fuel : Nat) (s : List Char) : List (String × String) :=
  match fuel, s with
  | 0, _ => []
  | _ + 1, [] => []
  | fuel + 1, c :: rest =>
    match matchMarkdownAt (c :: rest) with
    | some (tu, remaining) => tu :: findMarkdownLinksAux fuel remaining
    | none => findMarkdownLinksAux fuel rest

/-- All `(title, url)` markdown links in a string, in order. -/
def findMarkdownLinks (s : String) : List (String × String) :=
  findMarkdownLinksAux s.toList.length s.toList

/-! ## Citations -/

/-- `_extract_title_near_url` (main.py:327-335): the position of the URL's
first occurrence; when it is positive, the last `'.'`-separated fragment of
the stripped 100 characters before it, stripped again; otherwise `None`. -/
def extract_title_near_url (text url : String) : Option String :=
  let pos := pyFind text url
  if pos > 0 then
    let p := pos.toNat
    let beforeText := pyStripList ((text.toList.drop (p - 100)).take (p - (p - 100)))
    let sentences := beforeText.splitOn '.'
    some (pyStrip (String.mk (sentences.getLastD [])))
  else
    none

/-- Python `title or url` on an `Optional[str]`: `None` and `""` are falsy. -/
def pyOrElse (title : Option String) (url : String) : String :=
  match title with
  | none => url
  | some t => if t = "" then url else t

/-- The citation dict built by both extraction functions: exactly the five
keys `id`, `url`, `title`, `sourceType`, `snippet` (main.py:284-290,
304-310, 316-322). -/
structure Citation where
  id : Nat
  url : String
  title : String
  sourceType : String
  snippet : String
deriving Repr, DecidableEq

/-- The citation dict as the JSON value `json.dumps` receives, keys in
insertion order. -/
def citationJson (c : Citation) : JValue :=
  JValue.obj [("id", JValue.int c.id), ("url", JValue.str c.url),
              ("title", JValue.str c.title), ("sourceType", JValue.str c.sourceType),
              ("snippet", JValue.str c.snippet)]

/-- The snippet of a findings citation: `finding[:200] + "..."` when the
finding is longer than 200 characters, else the finding (main.py:289). -/
def findingSnippet (finding : String) : String :=
  if finding.length > 200 then finding.take 200 ++ "..." else finding

/-- One citation appended by the findings loop (main.py:284-290). -/
def mkFindingCitation (cid : Nat) (finding url : String) : Citation :=
  { id := cid, url := url, title := pyOrElse (extract_title_near_url finding url) url,
    sourceType := "web", snippet := findingSnippet finding }

/-- The inner `for url in urls` loop of `_extract_citations_from_findings`:
append a citation and bump `citation_id` for each URL. -/
def findingsUrlLoop (finding : String) : List String → List Citation × Nat → List Citation × Nat
  | [], acc => acc
  | u :: us, acc => findingsUrlLoop finding us (acc.1 ++ [mkFindingCitation acc.2 finding u], acc.2 + 1)

/-- The outer `for finding in findings` loop. -/
def findingsLoop : List String → List Citation × Nat → List Citation × Nat
  | [], acc => acc
  | f :: fs, acc => findingsLoop fs (findingsUrlLoop f (findUrls f) acc)

/-- `_extract_citations_from_findings` (main.py:272-293). -/
def extract_citations_from_findings (findings : List String) : List Citation :=
  (findingsLoop findings ([], 1)).1

/-- The markdown-link loop of `_extract_citations_from_report`
(main.py:303-311): title from the first capture group, empty snippet. -/
def markdownLoop : List (String × String) → List Citation × Nat → List Citation × Nat
  | [], acc => acc
  | (t, u) :: rest, acc =>
    markdownLoop rest
      (acc.1 ++ [{ id := acc.2, url := u, title := t, sourceType := "web", snippet := "" }], acc.2 + 1)

/-- The plain-URL loop of `_extract_citations_from_report` (main.py:314-323):
skip a URL already present in the list built so far, else append a citation
whose title is the URL itself. -/
def plainUrlLoop : List String → List Citation × Nat → List Citation × Nat
  | [], acc => acc
  | u :: rest, acc =>
    if acc.1.any (fun c => c.url == u) then plainUrlLoop rest acc
    else
      plainUrlLoop rest
        (acc.1 ++ [{ id := acc.2, url := u, title := u, sourceType := "web", snippet := "" }], acc.2 + 1)

/-- `_extract_citations_from_report` (main.py:295-325). -/
def extract_citations_from_report (report : String) : List Citation :=
  (plainUrlLoop (findUrls report) (markdownLoop (findMarkdownLinks report) ([], 1))).1

/-! ## Log interceptors -/

/-- The typed events the wrapper records internally (`ResearchEvent`,
main.py:64-67): an event type and a JSON-able data dict. -/
structure ResearchEvent where
  type : String
  data : JValue
deriving Repr

/-- The result of one call of the iterative `custom_log` closure
(main.py:114-147): the updated `iteration_count[0]`, the event scheduled via
`asyncio.create_task(self._emit_event(...))` if a pattern matched, and the
message passed unchanged to `original_log`. -/
structure LogStep where
  count : Nat
  event : Option ResearchEvent
  forwarded : String
deriving Repr

/-- The iterative-mode `custom_log` (main.py:114-147): an `elif` chain of
substring tests, first match wins; `original_log(message)` runs in every case. -/
def custom_log (n : Nat) (message : String) : LogStep :=
  if strContains "Starting Iteration" message then
    { count := n + 1,
      event := some { type := "iteration_start",
                      data := JValue.obj [("iteration", JValue.int (n + 1 : Nat)),
                                          ("message", JValue.str message)] },
      forwarded := message }
  else if strContains "<thought>" message then
    { count := n,
      event := some { type := "observations",
                      data := JValue.obj [("content",
                        JValue.str (pyStrip (pyReplace (pyReplace message "<thought>" "") "</thought>" "")))] },
      forwarded := message }
  else if strContains "<task>" message then
    { count := n,
      event := some { type := "gap_detected",
                      data := JValue.obj [("gap",
                        JValue.str (pyStrip (pyReplace (pyReplace message "<task>" "") "</task>" "")))] },
      forwarded := message }
  else if strContains "<action>" message then
    { count := n,
      event := some { type := "tool_selection",
                      data := JValue.obj [("tools",
                        JValue.str (pyStrip (pyReplace (pyReplace message "<action>" "") "</action>" "")))] },
      forwarded := message }
  else if strContains "Tool execution progress" message then
    { count := n,
      event := some { type := "tool_progress",
                      data := JValue.obj [("message", JValue.str message)] },
      forwarded := message }
  else if strContains "<findings>" message then
    { count := n,
      event := some { type := "findings_update",
                      data := JValue.obj [("findings",
                        JValue.str (pyStrip (pyReplace (pyReplace message "<findings>" "") "</findings>" "")))] },
      forwarded := message }
  else if strContains "Drafting Final Response" message then
    { count := n,
      event := some { type := "finalizing",
                      data := JValue.obj [("message", JValue.str "Creating final report...")] },
      forwarded := message }
  else
    { count := n, event := none, forwarded := message }

/-- The deep-mode `custom_log` (main.py:214-237); it keeps no counter
(`section_count` is never incremented). -/
def deep_custom_log (message : String) : Option ResearchEvent :=
  if strContains "Building Report Plan" message then
    some { type := "planning", data := JValue.obj [("message", JValue.str "Creating report outline...")] }
  else if strContains "Report plan created with" message then
    some { type := "plan_created", data := JValue.obj [("message", JValue.str message)] }
  else if strContains "Initializing Research Loops" message then
    some { type := "research_start",
           data := JValue.obj [("message", JValue.str "Starting parallel section research...")] }
  else if strContains "Building Final Report" message then
    some { type := "finalizing", data := JValue.obj [("message", JValue.str "Compiling final report...")] }
  else if strContains "completed in" message then
    some { type := "progress", data := JValue.obj [("message", JValue.str message)] }
  else
    none

/-- Running the iterative interceptor over every log line of a run: the final
`iteration_count[0]` and the events appended to `self.events` by the
`_emit_event` tasks, in scheduling order. -/
def runIterativeInterceptor (logs : List String) : Nat × List ResearchEvent :=
  logs.foldl
    (fun acc m =>
      let st := custom_log acc.1 m
      (st.count, acc.2 ++ st.event.toList))
    (0, [])

/-- Running the deep interceptor over every log line of a run. -/
def runDeepInterceptor (logs : List String) : List ResearchEvent :=
  logs.foldl (fun acc m => acc ++ (deep_custom_log m).toList) []

/-! ## Streaming generators

Each generator is modelled as a pure function of the request parameters and
the library's observable behaviour: the log lines the researcher emits through
the installed interceptor, and the result of the awaited `run` call —
`Except.ok` its return value (for iterative mode together with
`researcher.conversation.get_all_findings()`), `Except.error` the exception it
raises.  The function returns the list of SSE strings yielded, paired with the
wrapper's `self.events` list after the `_emit_event` tasks ran. -/

/-- A raised Python exception as the `except` block reads it: `str(e)` and
`type(e).__name__` (main.py:172-176, 257-261). -/
structure PyExc where
  message : String
  className : String
deriving Repr

/-- The observable behaviour of `IterativeResearcher` during one request:
log lines, then either `(report, conversation.get_all_findings())` or an
exception. -/
structure IterLib where
  logs : List String
  run : Except PyExc (String × List String)

/-- The observable behaviour of `DeepResearcher` during one request. -/
structure DeepLib where
  logs : List String
  run : Except PyExc String

/-- `stream_iterative_research` (main.py:76-176), with the wrapper's
`self.events` list threaded through: returns (yielded SSE strings, final
events list). `output_length` and `background_context` are only handed to the
library's `run` (main.py:151-155), whose behaviour `lib` models, so they do
not occur on the right-hand side. -/
def stream_iterative_research (initEvents : List ResearchEvent) (query : String)
    (max_iterations max_time_minutes : Int) (output_length background_context : String)
    (lib : IterLib) : List String × List ResearchEvent :=
  let started := format_event "started"
    (JValue.obj [("mode", JValue.str "iterative"), ("query", JValue.str query),
                 ("max_iterations", JValue.int max_iterations),
                 ("max_time_minutes", JValue.int max_time_minutes)])
  let interp := runIterativeInterceptor lib.logs
  let events := initEvents ++ interp.2
  match lib.run with
  | Except.error e =>
    ([started,
      format_event "error" (JValue.obj [("error", JValue.str e.message),
                                        ("type", JValue.str e.className)])],
     events)
  | Except.ok (report, findings) =>
    let citations := extract_citations_from_findings findings
    (started :: citations.map (fun c => format_event "citation" (citationJson c)) ++
      [format_event "final_report"
        (JValue.obj [("report", JValue.str report),
                     ("citations", JValue.arr (citations.map citationJson)),
                     ("iterations", JValue.int (interp.1 : Nat))]),
       format_event "completed"
        (JValue.obj [("message", JValue.str "Research completed successfully")])],
     events)

/-- `stream_deep_research` (main.py:178-261), with `self.events` threaded
through. -/
def stream_deep_research (initEvents : List ResearchEvent) (query : String)
    (max_iterations max_time_minutes : Int) (lib : DeepLib) : List String × List ResearchEvent :=
  let started := format_event "started"
    (JValue.obj [("mode", JValue.str "deep"), ("query", JValue.str query),
                 ("max_iterations", JValue.int max_iterations),
                 ("max_time_minutes", JValue.int max_time_minutes)])
  let events := initEvents ++ runDeepInterceptor lib.logs
  match lib.run with
  | Except.error e =>
    ([started,
      format_event "error" (JValue.obj [("error", JValue.str e.message),
                                        ("type", JValue.str e.className)])],
     events)
  | Except.ok report =>
    let citations := extract_citations_from_report report
    (started :: citations.map (fun c => format_event "citation" (citationJson c)) ++
      [format_event "final_report"
        (JValue.obj [("report", JValue.str report),
                     ("citations", JValue.arr (citations.map citationJson))]),
       format_event "completed"
        (JValue.obj [("message", JValue.str "Deep research completed successfully")])],
     events)

/-! ## Request validation and the endpoint -/

/-- A request body as received, before validation: each field absent or
present with its typed value. -/
structure RawRequest where
  query : Option String
  mode : Option String
  max_iterations : Option Int
  max_time_minutes : Option Int
  output_length : Option String
  background_context : Option String

/-- A validated `ResearchRequest` (main.py:51-61). -/
structure ResearchRequest where
  query : String
  mode : String
  max_iterations : Int
  max_time_minutes : Int
  output_length : String
  background_context : String
deriving Repr, DecidableEq

/-- Pydantic validation of `ResearchRequest` (main.py:51-61): `query` is
required; `mode` defaults to `"iterative"` and must be the literal
`"iterative"` or `"deep"`; `max_iterations` defaults to 5 with `ge=1, le=20`;
`max_time_minutes` defaults to 10 with `ge=1, le=60`; `output_length`
defaults to `"5 pages"`; `background_context` defaults to `""`. -/
def validateRequest (r : RawRequest) : Option ResearchRequest :=
  match r.query with
  | none => none
  | some q =>
    let mode := r.mode.getD "iterative"
    let mi := r.max_iterations.getD 5
    let mt := r.max_time_minutes.getD 10
    if (mode = "iterative" ∨ mode = "deep") ∧ 1 ≤ mi ∧ mi ≤ 20 ∧ 1 ≤ mt ∧ mt ≤ 60 then
      some { query := q, mode := mode, max_iterations := mi, max_time_minutes := mt,
             output_length := r.output_length.getD "5 pages",
             background_context := r.background_context.getD "" }
    else
      none

/-- The `POST /research/stream` handler (main.py:355-395): FastAPI rejects a
body that fails pydantic validation with a 422 before the handler body runs;
a valid request is dispatched on `mode` to one generator (each starts with an
empty `self.events`); the trailing `HTTPException(400)` branch is kept for
fidelity. The result is the stream of SSE strings, or the HTTP error status. -/
def stream_research (iterLib : IterLib) (deepLib : DeepLib) (raw : RawRequest) :
    Except Nat (List String) :=
  match validateRequest raw with
  | none => Except.error 422
  | some req =>
    if req.mode = "iterative" then
      Except.ok (stream_iterative_research [] req.query req.max_iterations
        req.max_time_minutes req.output_length req.background_context iterLib).1
    else if req.mode = "deep" then
      Except.ok (stream_deep_research [] req.query req.max_iterations
        req.max_time_minutes deepLib).1
    else
      Except.error 400

/-! ## Library-surface accesses

For the frame claim about the external library, the wrapper's interactions
with `deep_researcher` objects are transcribed as an access trace, one entry
per attribute read, attribute write, constructor call or method call that the
generator bodies perform on library objects. -/

/-- One interaction with the external library. -/
inductive LibAccess where
  | construct (cls : String)
  | readAttr (attr : String)
  | writeAttr (attr : String)
  | callMethod (meth : String)
deriving Repr, DecidableEq

/-- The interactions of `stream_iterative_research` with the library, in
program order: `LLMConfig(...)` (main.py:93), `IterativeResearcher(...)`
(main.py:103), `original_log = researcher._log_message` (main.py:111),
`researcher._log_message = custom_log` (main.py:149), `await researcher.run(...)`
(main.py:151), `researcher.conversation` and `.get_all_findings()`
(main.py:157). -/
def iterativeLibAccesses : List LibAccess :=
  [LibAccess.construct "LLMConfig",
   LibAccess.construct "IterativeResearcher",
   LibAccess.readAttr "_log_message",
   LibAccess.writeAttr "_log_message",
   LibAccess.callMethod "run",
   LibAccess.readAttr "conversation",
   LibAccess.callMethod "get_all_findings"]

/-- The interactions of `stream_deep_research` with the library, in program
order: `LLMConfig(...)` (main.py:193), `DeepResearcher(...)` (main.py:203),
`original_log = researcher._log_message` (main.py:211),
`researcher._log_message = custom_log` (main.py:239),
`await researcher.run(query=query)` (main.py:241). -/
def deepLibAccesses : List LibAccess :=
  [LibAccess.construct "LLMConfig",
   LibAccess.construct "DeepResearcher",
   LibAccess.readAttr "_log_message",
   LibAccess.writeAttr "_log_message",
   LibAccess.callMethod "run"]

/-- A Python attribute name that is private/internal by convention: it starts
with an underscore. -/
def isPrivateAttr (s : String) : Bool :=
  match s.toList with
  | [] => false
  | c :: _ => c.toNat == 95

/-! ## Theorems -/

/-- A non-vacuity check for the scanners: a findings string with one URL
yields one citation with the expected fields. -/
theorem findings_extraction_example :
    extract_citations_from_findings ["see https://x.y z"] =
      [{ id := 1, url := "https://x.y", title := "see", sourceType := "web",
         snippet := "see https://x.y z" }] := by
  decide

/-- A non-vacuity check for the report scanner: markdown links and plain URLs
are both picked up, and the plain pass deduplicates against the list built so
far (the plain scan's URL keeps the closing parenthesis, so it differs from
the markdown capture). -/
theorem report_extraction_example :
    (extract_citations_from_report "dup https://d.com https://d.com [D](https://d.com)").map
      Citation.url = ["https://d.com", "https://d.com)"] := by
  decide

/-- C4: SSE framing. `_format_event(t, d)` is exactly `"data: "`, the JSON
serialisation of the two-key object `{"type": t, "data": d}`, and a blank
line; and every string either generator yields is an application of
`_format_event`. -/
theorem sse_framing : ∀ (t : String) (d : JValue) (init : List ResearchEvent)
    (q : String) (mi mt : Int) (ol bg : String) (ilib : IterLib) (dlib : DeepLib) (s : String),
    format_event t d =
      "data: " ++ dumps (JValue.obj [("type", JValue.str t), ("data", d)]) ++ "\n\n"
    ∧ (s ∈ (stream_iterative_research init q mi mt ol bg ilib).1 →
        ∃ t2 d2, s = format_event t2 d2)
    ∧ (s ∈ (stream_deep_research init q mi mt dlib).1 →
        ∃ t2 d2, s = format_event t2 d2) := by
  intro t d init q mi mt ol bg ilib dlib s
  refine ⟨rfl, ?_, ?_⟩
  · intro hs
    unfold stream_iterative_research at hs
    rcases hrun : ilib.run with e | rf
    · rw [hrun] at hs
      rcases List.mem_cons.mp hs with rfl | hs
      · exact ⟨_, _, rfl⟩
      rcases List.mem_cons.mp hs with rfl | hs
      · exact ⟨_, _, rfl⟩
      · cases hs
    · rw [hrun] at hs
      rcases List.mem_cons.mp hs with rfl | hs
      · exact ⟨_, _, rfl⟩
      rcases List.mem_append.mp hs with hmap | htail
      · obtain ⟨c, -, hc⟩ := List.mem_map.mp hmap
        exact ⟨_, _, hc.symm⟩
      rcases List.mem_cons.mp htail with rfl | htail
      · exact ⟨_, _, rfl⟩
      rcases List.mem_cons.mp htail with rfl | htail
      · exact ⟨_, _, rfl⟩
      · cases htail
  · intro hs
    unfold stream_deep_research at hs
    rcases hrun : dlib.run with e | rf
    · rw [hrun] at hs
      rcases List.mem_cons.mp hs with rfl | hs
      · exact ⟨_, _, rfl⟩
      rcases List.mem_cons.mp hs with rfl | hs
      · exact ⟨_, _, rfl⟩
      · cases hs
    · rw [hrun] at hs
      rcases List.mem_cons.mp hs with rfl | hs
      · exact ⟨_, _, rfl⟩
      rcases List.mem_append.mp hs with hmap | htail
      · obtain ⟨c, -, hc⟩ := List.mem_map.mp hmap
        exact ⟨_, _, hc.symm⟩
      rcases List.mem_cons.mp htail with rfl | htail
      · exact ⟨_, _, rfl⟩
      rcases List.mem_cons.mp htail with rfl | htail
      · exact ⟨_, _, rfl⟩
      · cases htail

/-- C3: stream event order. In either mode the first yielded event is the
`started` event carrying the mode, query, `max_iterations` and
`max_time_minutes`; and when the library's `run` returns without raising, the
stream is exactly `started`, one `citation` event per extracted citation in
extraction order, one `final_report` event with the report and the full
citation list (with the iteration count in iterative mode), and one
`completed` event, with nothing after it. -/
theorem stream_event_order_on_success : ∀ (init : List ResearchEvent) (q : String)
    (mi mt : Int) (ol bg : String) (ilib : IterLib) (dlib : DeepLib)
    (report : String) (findings : List String) (dreport : String),
    ((stream_iterative_research init q mi mt ol bg ilib).1.head? =
      some (format_event "started"
        (JValue.obj [("mode", JValue.str "iterative"), ("query", JValue.str q),
                     ("max_iterations", JValue.int mi), ("max_time_minutes", JValue.int mt)])))
    ∧ (ilib.run = Except.ok (report, findings) →
        (stream_iterative_research init q mi mt ol bg ilib).1 =
          format_event "started"
            (JValue.obj [("mode", JValue.str "iterative"), ("query", JValue.str q),
                         ("max_iterations", JValue.int mi), ("max_time_minutes", JValue.int mt)]) ::
          (extract_citations_from_findings findings).map
            (fun c => format_event "citation" (citationJson c)) ++
          [format_event "final_report"
            (JValue.obj [("report", JValue.str report),
                         ("citations",
                          JValue.arr ((extract_citations_from_findings findings).map citationJson)),
                         ("iterations", JValue.int ((runIterativeInterceptor ilib.logs).1 : Nat))]),
           format_event "completed"
            (JValue.obj [("message", JValue.str "Research completed successfully")])])
    ∧ ((stream_deep_research init q mi mt dlib).1.head? =
      some (format_event "started"
        (JValue.obj [("mode", JValue.str "deep"), ("query", JValue.str q),
                     ("max_iterations", JValue.int mi), ("max_time_minutes", JValue.int mt)])))
    ∧ (dlib.run = Except.ok dreport →
        (stream_deep_research init q mi mt dlib).1 =
          format_event "started"
            (JValue.obj [("mode", JValue.str "deep"), ("query", JValue.str q),
                         ("max_iterations", JValue.int mi), ("max_time_minutes", JValue.int mt)]) ::
          (extract_citations_from_report dreport).map
            (fun c => format_event "citation" (citationJson c)) ++
          [format_event "final_report"
            (JValue.obj [("report", JValue.str dreport),
                         ("citations",
                          JValue.arr ((extract_citations_from_report dreport).map citationJson))]),
           format_event "completed"
            (JValue.obj [("message", JValue.str "Deep research completed successfully")])]) := by
  intro init q mi mt ol bg ilib dlib report findings dreport
  refine ⟨?_, ?_, ?_, ?_⟩
  · unfold stream_iterative_research
    rcases ilib.run with e | rf <;> rfl
  · intro hrun
    unfold stream_iterative_research
    rw [hrun]
  · unfold stream_deep_research
    rcases dlib.run with e | rf <;> rfl
  · intro hrun
    unfold stream_deep_research
    rw [hrun]

/-- C8: error atomicity. When the library's `run` raises, the stream is
exactly the `started` event followed by one `error` event carrying `str(e)`
under `"error"` and the exception's class name under `"type"`; no citation,
`final_report` or `completed` event follows, and the generator returns the
list normally instead of propagating the exception. -/
theorem stream_error_atomicity : ∀ (init : List ResearchEvent) (q : String)
    (mi mt : Int) (ol bg : String) (ilib : IterLib) (dlib : DeepLib) (e e2 : PyExc),
    (ilib.run = Except.error e →
      (stream_iterative_research init q mi mt ol bg ilib).1 =
        [format_event "started"
          (JValue.obj [("mode", JValue.str "iterative"), ("query", JValue.str q),
                       ("max_iterations", JValue.int mi), ("max_time_minutes", JValue.int mt)]),
         format_event "error"
          (JValue.obj [("error", JValue.str e.message), ("type", JValue.str e.className)])])
    ∧ (dlib.run = Except.error e2 →
      (stream_deep_research init q mi mt dlib).1 =
        [format_event "started"
          (JValue.obj [("mode", JValue.str "deep"), ("query", JValue.str q),
                       ("max_iterations", JValue.int mi), ("max_time_minutes", JValue.int mt)]),
         format_event "error"
          (JValue.obj [("error", JValue.str e2.message), ("type", JValue.str e2.className)])]) := by
  intro init q mi mt ol bg ilib dlib e e2
  constructor
  · intro hrun
    unfold stream_iterative_research
    rw [hrun]
  · intro hrun
    unfold stream_deep_research
    rw [hrun]

/-- C7: the interceptor's typed events never reach the response. The SSE
stream either generator yields does not depend on the wrapper's internal
`self.events` list (nothing reads it), and the generator only ever appends
the interceptor's events to that list. -/
theorem interceptor_events_isolated : ∀ (init init2 : List ResearchEvent) (q : String)
    (mi mt : Int) (ol bg : String) (ilib : IterLib) (dlib : DeepLib),
    ((stream_iterative_research init q mi mt ol bg ilib).1 =
      (stream_iterative_research init2 q mi mt ol bg ilib).1)
    ∧ ((stream_iterative_research init q mi mt ol bg ilib).2 =
      init ++ (runIterativeInterceptor ilib.logs).2)
    ∧ ((stream_deep_research init q mi mt dlib).1 =
      (stream_deep_research init2 q mi mt dlib).1)
    ∧ ((stream_deep_research init q mi mt dlib).2 = init ++ runDeepInterceptor dlib.logs) := by
  intro init init2 q mi mt ol bg ilib dlib
  refine ⟨?_, ?_, ?_, ?_⟩
  · unfold stream_iterative_research
    rcases ilib.run with e | rf <;> rfl
  · unfold stream_iterative_research
    rcases ilib.run with e | rf <;> rfl
  · unfold stream_deep_research
    rcases dlib.run with e | rf <;> rfl
  · unfold stream_deep_research
    rcases dlib.run with e | rf <;> rfl

/-- C2: iterative log interceptor translation. Every call forwards the
unmodified message to the original log function; the `elif` chain records at
most one typed event, chosen by the first matching pattern in source order; a
message matching no pattern records none; only `"Starting Iteration"`
increments the iteration counter. -/
theorem custom_log_translation : ∀ (n : Nat) (msg : String),
    ((custom_log n msg).forwarded = msg)
    ∧ (strContains "Starting Iteration" msg = true →
        custom_log n msg =
          { count := n + 1,
            event := some { type := "iteration_start",
                            data := JValue.obj [("iteration", JValue.int (n + 1 : Nat)),
                                                ("message", JValue.str msg)] },
            forwarded := msg })
    ∧ (strContains "Starting Iteration" msg = false →
       strContains "<thought>" msg = true →
        custom_log n msg =
          { count := n,
            event := some { type := "observations",
                            data := JValue.obj [("content", JValue.str
                              (pyStrip (pyReplace (pyReplace msg "<thought>" "") "</thought>" "")))] },
            forwarded := msg })
    ∧ (strContains "Starting Iteration" msg = false →
       strContains "<thought>" msg = false →
       strContains "<task>" msg = true →
        custom_log n msg =
          { count := n,
            event := some { type := "gap_detected",
                            data := JValue.obj [("gap", JValue.str
                              (pyStrip (pyReplace (pyReplace msg "<task>" "") "</task>" "")))] },
            forwarded := msg })
    ∧ (strContains "Starting Iteration" msg = false →
       strContains "<thought>" msg = false →
       strContains "<task>" msg = false →
       strContains "<action>" msg = true →
        custom_log n msg =
          { count := n,
            event := some { type := "tool_selection",
                            data := JValue.obj [("tools", JValue.str
                              (pyStrip (pyReplace (pyReplace msg "<action>" "") "</action>" "")))] },
            forwarded := msg })
    ∧ (strContains "Starting Iteration" msg = false →
       strContains "<thought>" msg = false →
       strContains "<task>" msg = false →
       strContains "<action>" msg = false →
       strContains "Tool execution progress" msg = true →
        custom_log n msg =
          { count := n,
            event := some { type := "tool_progress",
                            data := JValue.obj [("message", JValue.str msg)] },
            forwarded := msg })
    ∧ (strContains "Starting Iteration" msg = false →
       strContains "<thought>" msg = false →
       strContains "<task>" msg = false →
       strContains "<action>" msg = false →
       strContains "Tool execution progress" msg = false →
       strContains "<findings>" msg = true →
        custom_log n msg =
          { count := n,
            event := some { type := "findings_update",
                            data := JValue.obj [("findings", JValue.str
                              (pyStrip (pyReplace (pyReplace msg "<findings>" "") "</findings>" "")))] },
            forwarded := msg })
    ∧ (strContains "Starting Iteration" msg = false →
       strContains "<thought>" msg = false →
       strContains "<task>" msg = false →
       strContains "<action>" msg = false →
       strContains "Tool execution progress" msg = false →
       strContains "<findings>" msg = false →
       strContains "Drafting Final Response" msg = true →
        custom_log n msg =
          { count := n,
            event := some { type := "finalizing",
                            data := JValue.obj [("message", JValue.str "Creating final report...")] },
            forwarded := msg })
    ∧ (strContains "Starting Iteration" msg = false →
       strContains "<thought>" msg = false →
       strContains "<task>" msg = false →
       strContains "<action>" msg = false →
       strContains "Tool execution progress" msg = false →
       strContains "<findings>" msg = false →
       strContains "Drafting Final Response" msg = false →
        custom_log n msg = { count := n, event := none, forwarded := msg }) := by
  intro n msg
  refine ⟨?_, ?_, ?_, ?_, ?_, ?_, ?_, ?_, ?_⟩
  · unfold custom_log
    split_ifs <;> rfl
  · intro h1
    simp only [custom_log, h1]
    rfl
  · intro h1 h2
    simp only [custom_log, h1, h2]
    rfl
  · intro h1 h2 h3
    simp only [custom_log, h1, h2, h3]
    rfl
  · intro h1 h2 h3 h4
    simp only [custom_log, h1, h2, h3, h4]
    rfl
  · intro h1 h2 h3 h4 h5
    simp only [custom_log, h1, h2, h3, h4, h5]
    rfl
  · intro h1 h2 h3 h4 h5 h6
    simp only [custom_log, h1, h2, h3, h4, h5, h6]
    rfl
  · intro h1 h2 h3 h4 h5 h6 h7
    simp only [custom_log, h1, h2, h3, h4, h5, h6, h7]
    rfl
  · intro h1 h2 h3 h4 h5 h6 h7
    simp only [custom_log, h1, h2, h3, h4, h5, h6, h7]
    rfl

/-- C1: request validation. A request body is accepted exactly when `query`
is present, the (defaulted) `mode` is the literal `"iterative"` or `"deep"`,
and the (defaulted) integer bounds `1 <= max_iterations <= 20` and
`1 <= max_time_minutes <= 60` hold; a body with every optional field omitted
validates to the documented defaults; and a rejected body produces the 422
validation error without either research method running (the response is the
same whatever the library would have done). -/
theorem research_request_validation : ∀ (r : RawRequest) (il il2 : IterLib) (dl dl2 : DeepLib),
    ((validateRequest r).isSome ↔
      (r.query.isSome
        ∧ (r.mode.getD "iterative" = "iterative" ∨ r.mode.getD "iterative" = "deep")
        ∧ 1 ≤ r.max_iterations.getD 5 ∧ r.max_iterations.getD 5 ≤ 20
        ∧ 1 ≤ r.max_time_minutes.getD 10 ∧ r.max_time_minutes.getD 10 ≤ 60))
    ∧ (∀ q : String,
        validateRequest { query := some q, mode := none, max_iterations := none,
                          max_time_minutes := none, output_length := none,
                          background_context := none } =
          some { query := q, mode := "iterative", max_iterations := 5, max_time_minutes := 10,
                 output_length := "5 pages", background_context := "" })
    ∧ (validateRequest r = none →
        stream_research il dl r = Except.error 422
        ∧ stream_research il dl r = stream_research il2 dl2 r) := by
  intro r il il2 dl dl2
  refine ⟨?_, ?_, ?_⟩
  · rcases hq : r.query with _ | q
    · simp [validateRequest, hq]
    · simp only [validateRequest, hq]
      split_ifs with hcond
      · exact iff_of_true rfl ⟨rfl, hcond.1, hcond.2.1, hcond.2.2.1, hcond.2.2.2.1, hcond.2.2.2.2⟩
      · exact iff_of_false (by simp) fun hc => hcond hc.2
  · intro q
    simp [validateRequest]
  · intro hnone
    unfold stream_research
    rw [hnone]
    exact ⟨rfl, rfl⟩

/-- C6 counterexample: the wrapper does read and write a private attribute of
the researcher — `original_log = researcher._log_message` (main.py:111,
main.py:211) and `researcher._log_message = custom_log` (main.py:149,
main.py:239) — so it neither stays on the public constructor/`run` surface
nor leaves the researcher's attributes unchanged. -/
theorem library_private_attribute_accessed :
    LibAccess.readAttr "_log_message" ∈ iterativeLibAccesses
    ∧ LibAccess.writeAttr "_log_message" ∈ iterativeLibAccesses
    ∧ LibAccess.writeAttr "_log_message" ∈ deepLibAccesses
    ∧ isPrivateAttr "_log_message" = true := by
  decide

/-- C6 (amended): the wrapper touches the library only through the public
`LLMConfig`/`IterativeResearcher`/`DeepResearcher` constructors and the
researchers' `run` methods, plus three sanctioned exceptions: it reads the
researcher's private `_log_message` attribute, overwrites that one attribute
with its interceptor, and in iterative mode reads `researcher.conversation`
and calls its `get_all_findings` method. `_log_message` is the only attribute
it ever writes. -/
theorem library_access_surface : ∀ (a : LibAccess),
    (a ∈ iterativeLibAccesses →
      a ∈ [LibAccess.construct "LLMConfig", LibAccess.construct "IterativeResearcher",
           LibAccess.callMethod "run", LibAccess.callMethod "get_all_findings",
           LibAccess.readAttr "conversation", LibAccess.readAttr "_log_message",
           LibAccess.writeAttr "_log_message"])
    ∧ (a ∈ deepLibAccesses →
      a ∈ [LibAccess.construct "LLMConfig", LibAccess.construct "DeepResearcher",
           LibAccess.callMethod "run", LibAccess.readAttr "_log_message",
           LibAccess.writeAttr "_log_message"])
    ∧ (∀ s : String, LibAccess.writeAttr s ∈ iterativeLibAccesses ++ deepLibAccesses →
        s = "_log_message") := by
  intro a
  refine ⟨?_, ?_, ?_⟩
  · intro h
    fin_cases h <;> decide
  · intro h
    fin_cases h <;> decide
  · intro s h
    simp only [iterativeLibAccesses, deepLibAccesses, List.append_assoc, List.cons_append,
      List.nil_append, List.mem_cons, List.not_mem_nil, or_false] at h
    rcases h with h | h | h | h | h | h | h | h | h | h | h | h <;>
      first
      | (injection h with h)
      | (injection h)

/-! ## Citation loop invariants -/

/-- Invariant of the extraction loops: the running `citation_id` is one more
than the number of citations built, and the ids built so far are `1, 2, ...`
in order. -/
def IdsOk (acc : List Citation × Nat) : Prop :=
  acc.2 = acc.1.length + 1 ∧ acc.1.map Citation.id = List.range' 1 acc.1.length

theorem idsOk_append {l : List Citation} {n : Nat} {c : Citation}
    (h : IdsOk (l, n)) (hc : c.id = n) : IdsOk (l ++ [c], n + 1) := by
  obtain ⟨h1, h2⟩ := h
  dsimp only at h1 h2
  subst h1
  constructor
  · dsimp only
    simp only [List.length_append, List.length_cons, List.length_nil]
  · dsimp only
    simp only [List.map_append, List.map_cons, List.map_nil, h2, hc,
      List.length_append, List.length_cons, List.length_nil, Nat.add_zero,
      List.range'_concat, Nat.one_mul, Nat.add_comm]

theorem findingsUrlLoop_ids (f : String) (us : List String) :
    ∀ acc : List Citation × Nat, IdsOk acc → IdsOk (findingsUrlLoop f us acc) := by
  induction us with
  | nil => exact fun acc h => h
  | cons u us ih =>
    intro acc h
    exact ih _ (idsOk_append h rfl)

theorem findingsLoop_ids (fs : List String) :
    ∀ acc : List Citation × Nat, IdsOk acc → IdsOk (findingsLoop fs acc) := by
  induction fs with
  | nil => exact fun acc h => h
  | cons f fs ih =>
    intro acc h
    exact ih _ (findingsUrlLoop_ids f (findUrls f) acc h)

theorem markdownLoop_ids (links : List (String × String)) :
    ∀ acc : List Citation × Nat, IdsOk acc → IdsOk (markdownLoop links acc) := by
  induction links with
  | nil => exact fun acc h => h
  | cons tu links ih =>
    intro acc h
    exact ih _ (idsOk_append h rfl)

theorem plainUrlLoop_ids (us : List String) :
    ∀ acc : List Citation × Nat, IdsOk acc → IdsOk (plainUrlLoop us acc) := by
  induction us with
  | nil => exact fun acc h => h
  | cons u us ih =>
    intro acc h
    unfold plainUrlLoop
    split
    · exact ih _ h
    · exact ih _ (idsOk_append h rfl)

/-- C9: citation ids are consecutive. For both extraction functions the list
of ids of the result is exactly `[1, 2, ..., n]`: the `k`-th citation
(counting from 1) has id `k`. -/
theorem citation_ids_consecutive : ∀ (findings : List String) (report : String),
    (extract_citations_from_findings findings).map Citation.id
      = List.range' 1 (extract_citations_from_findings findings).length
    ∧ (extract_citations_from_report report).map Citation.id
      = List.range' 1 (extract_citations_from_report report).length := by
  intro findings report
  constructor
  · exact (findingsLoop_ids findings ([], 1) ⟨rfl, rfl⟩).2
  · exact (plainUrlLoop_ids (findUrls report) _
      (markdownLoop_ids (findMarkdownLinks report) ([], 1) ⟨rfl, rfl⟩)).2

theorem mem_findingsUrlLoop (f : String) (us : List String) :
    ∀ (acc : List Citation × Nat) (c : Citation), c ∈ (findingsUrlLoop f us acc).1 →
      c ∈ acc.1 ∨ ∃ k u, c = mkFindingCitation k f u := by
  induction us with
  | nil => exact fun acc c h => Or.inl h
  | cons u us ih =>
    intro acc c h
    rcases ih _ c h with h2 | h2
    · rcases List.mem_append.mp h2 with h3 | h3
      · exact Or.inl h3
      · rcases List.mem_singleton.mp h3 with rfl
        exact Or.inr ⟨acc.2, u, rfl⟩
    · exact Or.inr h2

theorem mem_findingsLoop (fs : List String) :
    ∀ (acc : List Citation × Nat) (c : Citation), c ∈ (findingsLoop fs acc).1 →
      c ∈ acc.1 ∨ ∃ f, f ∈ fs ∧ ∃ k u, c = mkFindingCitation k f u := by
  induction fs with
  | nil => exact fun acc c h => Or.inl h
  | cons f fs ih =>
    intro acc c h
    rcases ih _ c h with h2 | h2
    · rcases mem_findingsUrlLoop f (findUrls f) acc c h2 with h3 | h3
      · exact Or.inl h3
      · exact Or.inr ⟨f, List.mem_cons_self f fs, h3⟩
    · obtain ⟨g, hg, h3⟩ := h2
      exact Or.inr ⟨g, List.mem_cons_of_mem f hg, h3⟩

theorem mem_markdownLoop (links : List (String × String)) :
    ∀ (acc : List Citation × Nat) (c : Citation), c ∈ (markdownLoop links acc).1 →
      c ∈ acc.1 ∨ (c.sourceType = "web" ∧ c.snippet = "") := by
  induction links with
  | nil => exact fun acc c h => Or.inl h
  | cons tu links ih =>
    intro acc c h
    rcases ih _ c h with h2 | h2
    · rcases List.mem_append.mp h2 with h3 | h3
      · exact Or.inl h3
      · rcases List.mem_singleton.mp h3 with rfl
        exact Or.inr ⟨rfl, rfl⟩
    · exact Or.inr h2

theorem mem_plainUrlLoop (us : List String) :
    ∀ (acc : List Citation × Nat) (c : Citation), c ∈ (plainUrlLoop us acc).1 →
      c ∈ acc.1 ∨ (c.sourceType = "web" ∧ c.snippet = "" ∧ c.title = c.url) := by
  induction us with
  | nil => exact fun acc c h => Or.inl h
  | cons u us ih =>
    intro acc c h
    unfold plainUrlLoop at h
    split at h
    · exact ih _ c h
    · rcases ih _ c h with h2 | h2
      · rcases List.mem_append.mp h2 with h3 | h3
        · exact Or.inl h3
        · rcases List.mem_singleton.mp h3 with rfl
          exact Or.inr ⟨rfl, rfl, rfl⟩
      · exact Or.inr h2

/-- C5: citation record shape. Every citation either extraction function
produces is a record of exactly the five fields `id`, `url`, `title`,
`sourceType`, `snippet` (the `Citation` structure); its `sourceType` is
`"web"`; a findings citation's snippet is the source finding, truncated to
200 characters plus `"..."` when longer; its title is Python's
`title or url`, so it falls back to the URL when no title (or an empty
title) is found near the URL; a report citation's snippet is always empty. -/
theorem citation_record_shape : ∀ (findings : List String) (report : String) (c : Citation),
    (c ∈ extract_citations_from_findings findings →
      c.sourceType = "web"
      ∧ ∃ f, f ∈ findings
          ∧ c.snippet = (if f.length > 200 then f.take 200 ++ "..." else f)
          ∧ c.title = pyOrElse (extract_title_near_url f c.url) c.url
          ∧ ((extract_title_near_url f c.url = none ∨ extract_title_near_url f c.url = some "") →
              c.title = c.url))
    ∧ (c ∈ extract_citations_from_report report →
        c.sourceType = "web" ∧ c.snippet = "") := by
  intro findings report c
  constructor
  · intro h
    rcases mem_findingsLoop findings ([], 1) c h with h2 | h2
    · cases h2
    obtain ⟨f, hf, k, u, rfl⟩ := h2
    refine ⟨rfl, f, hf, rfl, rfl, ?_⟩
    intro hnone
    dsimp only [mkFindingCitation] at hnone
    rcases hnone with hnone | hnone <;>
      simp [mkFindingCitation, pyOrElse, hnone]
  · intro h
    rcases mem_plainUrlLoop (findUrls report) _ c h with h2 | h2
    · rcases mem_markdownLoop (findMarkdownLinks report) ([], 1) c h2 with h3 | h3
      · cases h3
      · exact h3
    · exact ⟨h2.1, h2.2.1⟩

/-- Freshness of the plain-URL pass: every citation it appends has a URL
different from the URL of every citation before it, whether in the base list
(the markdown pass's output) or earlier in the same pass. -/
def FreshExt (base ext : List Citation) : Prop :=
  ∀ (i : Nat) (h : i < ext.length) (c : Citation),
    c ∈ base ++ ext.take i → c.url ≠ (ext.get ⟨i, h⟩).url

theorem freshExt_nil (base : List Citation) : FreshExt base [] := by
  intro i h c hc
  exact absurd h (by simp)

theorem plainUrlLoop_shape (us : List String) :
    ∀ acc : List Citation × Nat, ∃ ext : List Citation,
      (plainUrlLoop us acc).1 = acc.1 ++ ext ∧ FreshExt acc.1 ext := by
  induction us with
  | nil =>
    intro acc
    exact ⟨[], by simp [plainUrlLoop], freshExt_nil acc.1⟩
  | cons u us ih =>
    intro acc
    unfold plainUrlLoop
    split
    · exact ih acc
    · rename_i hany
      obtain ⟨ext, heq, hfresh⟩ :=
        ih (acc.1 ++ [{ id := acc.2, url := u, title := u, sourceType := "web", snippet := "" }],
            acc.2 + 1)
      refine ⟨{ id := acc.2, url := u, title := u, sourceType := "web", snippet := "" } :: ext,
        ?_, ?_⟩
      · rw [heq, List.append_assoc, List.singleton_append]
      · have hany2 : ∀ c ∈ acc.1, ¬c.url = u := by
          rw [Bool.not_eq_true, List.any_eq_false] at hany
          intro c hc
          have := hany c hc
          simpa using this
        intro i h c hc
        cases i with
        | zero =>
          simp only [List.take_zero, List.append_nil] at hc
          simpa using hany2 c hc
        | succ i2 =>
          simp only [List.length_cons, Nat.add_lt_add_iff_right] at h
          rw [List.take_succ_cons, ← List.singleton_append, ← List.append_assoc] at hc
          simpa using hfresh i2 h c hc

theorem markdownLoop_len (links : List (String × String)) :
    ∀ acc : List Citation × Nat, (markdownLoop links acc).1.length = acc.1.length + links.length := by
  induction links with
  | nil => intro acc; simp [markdownLoop]
  | cons tu links ih =>
    intro acc
    obtain ⟨t, u⟩ := tu
    rw [markdownLoop, ih]
    simp only [List.length_append, List.length_cons, List.length_nil]
    omega

/-- C10: partial deduplication in report citation extraction. The markdown
pass appends one citation per link, so the first `(findMarkdownLinks r).length`
entries come from it; every citation the plain-URL pass appends has a URL
distinct from everything already in the list, so two citations can only share
a URL when both come from the markdown pass — which does happen, as the
concrete duplicated-link report shows. -/
theorem report_citation_partial_dedup : ∀ (report : String) (i j : Nat),
    ((findMarkdownLinks report).length ≤ (extract_citations_from_report report).length)
    ∧ (∀ (hi : i < (extract_citations_from_report report).length)
        (hj : j < (extract_citations_from_report report).length),
        i < j →
        ((extract_citations_from_report report).get ⟨i, hi⟩).url
          = ((extract_citations_from_report report).get ⟨j, hj⟩).url →
        j < (findMarkdownLinks report).length)
    ∧ ((extract_citations_from_report "[a](https://d.com) [b](https://d.com)").map Citation.url
        = ["https://d.com", "https://d.com", "https://d.com)"]) := by
  intro report i j
  obtain ⟨ext, heq, hfresh⟩ :=
    plainUrlLoop_shape (findUrls report) (markdownLoop (findMarkdownLinks report) ([], 1))
  have hblen : (markdownLoop (findMarkdownLinks report) ([], 1)).1.length
      = (findMarkdownLinks report).length := by
    rw [markdownLoop_len]
    simp
  have hL : extract_citations_from_report report
      = (markdownLoop (findMarkdownLinks report) ([], 1)).1 ++ ext := heq
  refine ⟨?_, ?_, ?_⟩
  · rw [hL, List.length_append, ← hblen]
    exact Nat.le_add_right _ _
  · intro hi hj hij hurl
    by_contra hge
    push_neg at hge
    have hkj : (markdownLoop (findMarkdownLinks report) ([], 1)).1.length ≤ j := by
      rw [hblen]
      exact hge
    have hj2 : j < (markdownLoop (findMarkdownLinks report) ([], 1)).1.length + ext.length := by
      have h2 := hj
      rw [hL, List.length_append] at h2
      exact h2
    have hjext : j - (markdownLoop (findMarkdownLinks report) ([], 1)).1.length < ext.length := by
      omega
    have hgetj : (extract_citations_from_report report).get ⟨j, hj⟩
        = ext.get ⟨j - (markdownLoop (findMarkdownLinks report) ([], 1)).1.length, hjext⟩ := by
      simp only [List.get_eq_getElem]
      rw [List.getElem_of_eq hL]
      exact List.getElem_append_right hkj
    have hmem : (extract_citations_from_report report).get ⟨i, hi⟩
        ∈ (markdownLoop (findMarkdownLinks report) ([], 1)).1 ++
          ext.take (j - (markdownLoop (findMarkdownLinks report) ([], 1)).1.length) := by
      rcases Nat.lt_or_ge i (markdownLoop (findMarkdownLinks report) ([], 1)).1.length with hik | hik
      · apply List.mem_append_left
        have hgi : (extract_citations_from_report report).get ⟨i, hi⟩
            = (markdownLoop (findMarkdownLinks report) ([], 1)).1.get ⟨i, hik⟩ := by
          simp only [List.get_eq_getElem]
          rw [List.getElem_of_eq hL]
          exact List.getElem_append_left hik
        rw [hgi]
        exact List.get_mem _ _ _
      · have hiext : i - (markdownLoop (findMarkdownLinks report) ([], 1)).1.length
            < ext.length := by
          have h2 := hi
          rw [hL, List.length_append] at h2
          omega
        have hlt : i - (markdownLoop (findMarkdownLinks report) ([], 1)).1.length
            < j - (markdownLoop (findMarkdownLinks report) ([], 1)).1.length := by
          omega
        have hgi : (extract_citations_from_report report).get ⟨i, hi⟩
            = ext.get ⟨i - (markdownLoop (findMarkdownLinks report) ([], 1)).1.length, hiext⟩ := by
          simp only [List.get_eq_getElem]
          rw [List.getElem_of_eq hL]
          exact List.getElem_append_right hik
        rw [hgi]
        apply List.mem_append_right
        have htk : ext.get ⟨i - (markdownLoop (findMarkdownLinks report) ([], 1)).1.length, hiext⟩
            = (ext.take (j - (markdownLoop (findMarkdownLinks report) ([], 1)).1.length)).get
                ⟨i - (markdownLoop (findMarkdownLinks report) ([], 1)).1.length, by
                  rw [List.length_take]
                  omega⟩ := by
          simp only [List.get_eq_getElem]
          exact List.getElem_take' ext hiext hlt
        rw [htk]
        exact List.get_mem _ _ _
    have hne := hfresh _ hjext _ hmem
    rw [hgetj] at hurl
    exact hne hurl
  · decide

/-- Non-vacuity check for the interceptor: a `<thought>` message records an
`observations` event with the tags stripped, a `Starting Iteration` message
bumps the counter, and an unmatched message records nothing. -/
theorem custom_log_example :
    (custom_log 2 "<thought>Plan next step</thought>").event =
      some { type := "observations", data := JValue.obj [("content", JValue.str "Plan next step")] }
    ∧ (custom_log 2 "=== Starting Iteration 3 ===").count = 3
    ∧ (custom_log 2 "nothing interesting").event = none := by
  exact ⟨rfl, rfl, rfl⟩

/-- Non-vacuity check for the generators: a concrete successful iterative run
yields the four documented events (started, one citation, final report,
completed). -/
theorem stream_example :
    (stream_iterative_research [] "q" 5 10 "5 pages" ""
      { logs := ["=== Starting Iteration 1 ==="],
        run := Except.ok ("rep", ["see https://x.y z"]) }).1.length = 4 := by
  rfl
